import Mathlib

/-!
Shallow embedding of `scripts/examples/31-TV-Shield/tv.py` from the OpenMV
repository fragment.

The script is a flat sequence of five statements

  sensor.reset()
  sensor.set_pixformat(sensor.RGB565)
  sensor.set_framesize(sensor.QQVGA)
  tv.init()
  tv.channel(8)

followed by the unbounded loop

  while(True):
      tv.display(sensor.snapshot())

All of its observable behaviour is calls into the external collaborators
`sensor` and `tv`.  We embed the script as a small-step machine over a
program counter (one location per statement plus the loop head); each step
emits the events (collaborator calls) of that statement.  The frames
returned by `sensor.snapshot` are supplied by an environment
`env : Nat → F` giving the frame returned by the k-th snapshot call; the
frame type `F` is abstract.  For the error-propagation behaviour we embed
the loop a second time in the `Except` monad, where the collaborators are
fallible; the Python source contains no `try`/`except`, so statement
sequencing is plain monadic bind.
-/

namespace TVShield

/-- Pixel format constants of the `sensor` module used by the script
(`sensor.RGB565`; the comment on line 10 mentions `sensor.GRAYSCALE` as the
alternative). -/
inductive PixFormat where
  | RGB565
  | GRAYSCALE
deriving DecidableEq

/-- Frame size presets of the `sensor` module (the script uses
`sensor.QQVGA`). -/
inductive FrameSize where
  | QQVGA
  | QVGA
deriving DecidableEq

/-- Observable events of the script: one constructor per distinct external
call the script makes.  `F` is the abstract type of frame objects returned
by `sensor.snapshot`. -/
inductive Event (F : Type) where
  | sensorReset
  | setPixformat (fmt : PixFormat)
  | setFramesize (sz : FrameSize)
  | tvInit
  | tvChannel (ch : Nat)
  | snapshot (f : F)
  | display (f : F)
deriving DecidableEq

/-- Program counter: one location per statement of the script, and the loop
head.  The script has no statement after the loop, so there is no halt
location. -/
inductive PC where
  | atReset
  | atPixformat
  | atFramesize
  | atTvInit
  | atChannel
  | inLoop
deriving DecidableEq

/-- Machine state of the embedded script: a program counter and the number
of completed loop iterations (equivalently the number of snapshot calls
made so far).  The state stores no frame: the script binds the result of
`sensor.snapshot()` to no variable, passing it directly to `tv.display`. -/
structure MachineState where
  pc : PC
  iter : Nat
deriving DecidableEq

/-- One step of the script: execute the statement at the current program
counter, returning the next state and the events (external calls) that
statement performs.  The loop body `tv.display(sensor.snapshot())` performs
the snapshot call and then the display call on the frame just returned. -/
def step {F : Type} (env : Nat → F) (s : MachineState) :
    MachineState × List (Event F) :=
  match s.pc with
  | .atReset => (⟨.atPixformat, s.iter⟩, [.sensorReset])
  | .atPixformat => (⟨.atFramesize, s.iter⟩, [.setPixformat .RGB565])
  | .atFramesize => (⟨.atTvInit, s.iter⟩, [.setFramesize .QQVGA])
  | .atTvInit => (⟨.atChannel, s.iter⟩, [.tvInit])
  | .atChannel => (⟨.inLoop, s.iter⟩, [.tvChannel 8])
  | .inLoop => (⟨.inLoop, s.iter + 1⟩,
      [.snapshot (env s.iter), .display (env s.iter)])

/-- Run the script for `n` steps from its entry point, accumulating the
trace of emitted events. -/
def run {F : Type} (env : Nat → F) : Nat → MachineState × List (Event F)
  | 0 => (⟨.atReset, 0⟩, [])
  | n + 1 =>
      let (s, t) := run env n
      let (s', es) := step env s
      (s', t ++ es)

/-- The five configuration events of the setup section of the script, in
source order (lines 9-13 of `tv.py`). -/
def setupEvents (F : Type) : List (Event F) :=
  [.sensorReset, .setPixformat .RGB565, .setFramesize .QQVGA,
   .tvInit, .tvChannel 8]

/-- The events emitted by the first `n` iterations of the display loop:
iteration `i` emits the snapshot of frame `env i` immediately followed by
the display of that same frame. -/
def loopEvents {F : Type} (env : Nat → F) : Nat → List (Event F)
  | 0 => []
  | n + 1 => loopEvents env n ++ [.snapshot (env n), .display (env n)]

/-- Recognizer for configuration events (the five kinds of setup calls). -/
def isConfigEvent {F : Type} : Event F → Bool
  | .sensorReset => true
  | .setPixformat _ => true
  | .setFramesize _ => true
  | .tvInit => true
  | .tvChannel _ => true
  | _ => false

/-- Recognizer for snapshot (capture) events. -/
def isSnapshotEvent {F : Type} : Event F → Bool
  | .snapshot _ => true
  | _ => false

/-- Recognizer for display events. -/
def isDisplayEvent {F : Type} : Event F → Bool
  | .display _ => true
  | _ => false

/-- The frame captured by an event, when it is a snapshot event. -/
def capturedFrame {F : Type} : Event F → Option F
  | .snapshot f => some f
  | _ => none

/-- The frame shown by an event, when it is a display event. -/
def displayedFrame {F : Type} : Event F → Option F
  | .display f => some f
  | _ => none

/-- The display loop embedded in the `Except` monad with fallible
collaborators: `snap k` is the result of the k-th `sensor.snapshot()` call
and `disp f` the result of `tv.display(f)`.  The Python source wraps the
loop body in no `try`/`except`, so statement sequencing is plain bind and
the result of `tv.display` is discarded.  `loopRunE snap disp n` is the
outcome of the first `n` iterations. -/
def loopRunE {F ε : Type} (snap : Nat → Except ε F)
    (disp : F → Except ε Unit) : Nat → Except ε Unit
  | 0 => Except.ok ()
  | n + 1 =>
      (loopRunE snap disp n).bind fun _ =>
        (snap n).bind fun f => disp f

/-! ### Characterization of the run -/

theorem run_setup {F : Type} (env : Nat → F) :
    run env 5 = (⟨.inLoop, 0⟩, setupEvents F) := rfl

theorem run_eq {F : Type} (env : Nat → F) (n : Nat) :
    run env (5 + n) = (⟨.inLoop, n⟩, setupEvents F ++ loopEvents env n) := by
  induction n with
  | zero => simpa [loopEvents] using run_setup env
  | succ n ih =>
      show run env ((5 + n) + 1) = _
      simp [run, ih, step, loopEvents]

theorem take_five_append {F : Type} (l : List (Event F)) :
    (setupEvents F ++ l).take 5 = setupEvents F := rfl

theorem drop_five_append {F : Type} (l : List (Event F)) :
    (setupEvents F ++ l).drop 5 = l := rfl

theorem loopEvents_filterMap_displayed {F : Type} (env : Nat → F) (n : Nat) :
    (loopEvents env n).filterMap displayedFrame = (List.range n).map env := by
  induction n with
  | zero => rfl
  | succ n ih =>
      simp [loopEvents, List.range_succ, List.filterMap_append, ih,
        displayedFrame]

theorem loopEvents_filterMap_captured {F : Type} (env : Nat → F) (n : Nat) :
    (loopEvents env n).filterMap capturedFrame = (List.range n).map env := by
  induction n with
  | zero => rfl
  | succ n ih =>
      simp [loopEvents, List.range_succ, List.filterMap_append, ih,
        capturedFrame]

theorem loopEvents_filter_config {F : Type} (env : Nat → F) (n : Nat) :
    (loopEvents env n).filter isConfigEvent = [] := by
  induction n with
  | zero => rfl
  | succ n ih => simp [loopEvents, List.filter_append, ih, isConfigEvent]

theorem loopEvents_countP_snapshot {F : Type} (env : Nat → F) (n : Nat) :
    (loopEvents env n).countP isSnapshotEvent = n := by
  induction n with
  | zero => rfl
  | succ n ih => simp [loopEvents, List.countP_append, ih, isSnapshotEvent,
      List.countP_cons]

theorem loopEvents_countP_display {F : Type} (env : Nat → F) (n : Nat) :
    (loopEvents env n).countP isDisplayEvent = n := by
  induction n with
  | zero => rfl
  | succ n ih => simp [loopEvents, List.countP_append, ih, isDisplayEvent,
      List.countP_cons]

theorem setup_countP_snapshot {F : Type} :
    (setupEvents F).countP isSnapshotEvent = 0 := rfl

theorem setup_countP_display {F : Type} :
    (setupEvents F).countP isDisplayEvent = 0 := rfl

theorem trace_countP_snapshot {F : Type} (env : Nat → F) (n : Nat) :
    (run env (5 + n)).2.countP isSnapshotEvent = n := by
  rw [run_eq]
  simp [List.countP_append, loopEvents_countP_snapshot, setup_countP_snapshot]

theorem trace_countP_display {F : Type} (env : Nat → F) (n : Nat) :
    (run env (5 + n)).2.countP isDisplayEvent = n := by
  rw [run_eq]
  simp [List.countP_append, loopEvents_countP_display, setup_countP_display]

theorem setup_filterMap_displayed {F : Type} :
    (setupEvents F).filterMap displayedFrame = [] := rfl

theorem setup_filterMap_captured {F : Type} :
    (setupEvents F).filterMap capturedFrame = [] := rfl

theorem setup_filter_config {F : Type} :
    (setupEvents F).filter isConfigEvent = setupEvents F := rfl

theorem loopEvents_eq_flatten {F : Type} (env : Nat → F) (n : Nat) :
    loopEvents env n =
      ((List.range n).map fun i =>
        [Event.snapshot (env i), Event.display (env i)]).flatten := by
  induction n with
  | zero => rfl
  | succ n ih => simp [loopEvents, List.range_succ, ih]

/-! ### Claim theorems -/

/-- Claim C1: in every run, the display operation is invoked exactly once
per capture and receives the exact frame object returned by that capture,
in capture order: after any number of iterations the sequence of displayed
frames and the sequence of captured frames both equal the sequence of
frames the environment produced, with no drops, duplicates or
reordering. -/
theorem display_exactly_captured_frames {F : Type} (env : Nat → F)
    (n : Nat) :
    (run env (5 + n)).2.filterMap displayedFrame = (List.range n).map env ∧
    (run env (5 + n)).2.filterMap capturedFrame = (List.range n).map env := by
  rw [run_eq]
  constructor
  · rw [List.filterMap_append, setup_filterMap_displayed,
      loopEvents_filterMap_displayed, List.nil_append]
  · rw [List.filterMap_append, setup_filterMap_captured,
      loopEvents_filterMap_captured, List.nil_append]

/-- Claim C2: the five configuration operations (sensor reset, set pixel
format, set frame size, tv init, tv channel) occur exactly once each, in
exactly that order, and all before the loop: the first five events of any
run are exactly the five configuration events in source order, the
configuration events of the whole trace are exactly those five, and the
part of the trace after the setup section contains no configuration
event. -/
theorem config_once_in_order_before_loop {F : Type} (env : Nat → F)
    (n : Nat) :
    (run env (5 + n)).2.take 5 = setupEvents F ∧
    (run env (5 + n)).2.filter isConfigEvent = setupEvents F ∧
    ((run env (5 + n)).2.drop 5).filter isConfigEvent = [] := by
  rw [run_eq]
  refine ⟨take_five_append _, ?_, ?_⟩
  · rw [List.filter_append, setup_filter_config, loopEvents_filter_config,
      List.append_nil]
  · rw [drop_five_append]
    exact loopEvents_filter_config env n

/-- Claim C3: the loop never terminates on its own: for every number `n` of
completed iterations, the machine is still at the loop head with exactly
`n` iterations done, and (the program counter having no halt location) the
next step is again a loop iteration. -/
theorem loop_never_terminates {F : Type} (env : Nat → F) (n : Nat) :
    (run env (5 + n)).1 = ⟨PC.inLoop, n⟩ := by
  rw [run_eq]

/-- Claim C5: execution is a single sequential thread in which each
iteration fully completes before the next begins: the loop part of the
trace is exactly the concatenation, in iteration order, of the two-event
blocks "capture frame i, then display frame i", so the trace strictly
alternates capture, display, capture, display. -/
theorem strict_capture_display_alternation {F : Type} (env : Nat → F)
    (n : Nat) :
    (run env (5 + n)).2.drop 5 =
      ((List.range n).map fun i =>
        [Event.snapshot (env i), Event.display (env i)]).flatten := by
  rw [run_eq, drop_five_append, loopEvents_eq_flatten]

/-- Claim C8: the loop body produces no value and has no effect beyond the
capture and display calls: one further step from any loop state appends
exactly the two events of the fresh iteration (the frames of earlier
iterations are not consulted) and the carried state is just the iteration
counter. -/
theorem loop_body_effect_only {F : Type} (env : Nat → F) (n : Nat) :
    (run env (5 + n + 1)).2 =
      (run env (5 + n)).2 ++ [Event.snapshot (env n), Event.display (env n)] ∧
    (run env (5 + n + 1)).1 = ⟨PC.inLoop, n + 1⟩ := by
  have h1 := run_eq env n
  have h2 := run_eq env (n + 1)
  rw [show 5 + n + 1 = 5 + (n + 1) from rfl, h1, h2]
  simp [loopEvents]

/-- Claim C9: the one-time setup calls pass exactly the arguments RGB565
(pixel format), QQVGA (frame size) and 8 (wireless tv channel): the setup
section of every run is this exact event list. -/
theorem setup_arguments {F : Type} (env : Nat → F) :
    (run env 5).2 =
      [Event.sensorReset, Event.setPixformat PixFormat.RGB565,
       Event.setFramesize FrameSize.QQVGA, Event.tvInit,
       Event.tvChannel 8] := rfl

/-- Claim C10: the script is deterministic relative to its collaborators:
two runs whose environments return the same frame at every snapshot call
produce identical machine states and identical event traces (hence the
same setup calls and the same arguments to display), the script consuming
no other input. -/
theorem deterministic_given_frames {F : Type} (env env' : Nat → F)
    (n : Nat) (h : ∀ i, env i = env' i) : run env n = run env' n := by
  have he : env = env' := funext h
  rw [he]

theorem deterministic_given_frames_witness :
    (∀ i : Nat, (fun j : Nat => j + 1) i = (fun j : Nat => j + 1) i) ∧
    run (fun j : Nat => j + 1) 7 = run (fun j : Nat => j + 1) 7 :=
  ⟨fun _ => rfl,
   deterministic_given_frames (fun j : Nat => j + 1)
     (fun j : Nat => j + 1) 7 (fun _ => rfl)⟩

theorem loopEvents_countP_config {F : Type} (env : Nat → F) (n : Nat) :
    (loopEvents env n).countP isConfigEvent = 0 := by
  induction n with
  | zero => rfl
  | succ n ih => simp [loopEvents, List.countP_append, ih, isConfigEvent,
      List.countP_cons]

theorem balanced_split_aux {F : Type} (env : Nat → F) :
    ∀ (n : Nat) (l₁ l₂ : List (Event F)),
      setupEvents F ++ loopEvents env n = l₁ ++ l₂ →
      l₁.countP isDisplayEvent ≤ l₁.countP isSnapshotEvent ∧
      l₁.countP isSnapshotEvent ≤ l₁.countP isDisplayEvent + 1 := by
  intro n
  induction n with
  | zero =>
      intro l₁ l₂ h
      rw [loopEvents, List.append_nil] at h
      have hmem : ∀ a ∈ l₁, a ∈ setupEvents F := by
        intro a ha
        rw [h]
        exact List.mem_append_left _ ha
      have hs : l₁.countP isSnapshotEvent = 0 := by
        refine List.countP_eq_zero.mpr ?_
        intro a ha
        have hma := hmem a ha
        simp [setupEvents] at hma
        rcases hma with rfl | rfl | rfl | rfl | rfl <;> simp [isSnapshotEvent]
      have hd : l₁.countP isDisplayEvent = 0 := by
        refine List.countP_eq_zero.mpr ?_
        intro a ha
        have hma := hmem a ha
        simp [setupEvents] at hma
        rcases hma with rfl | rfl | rfl | rfl | rfl <;> simp [isDisplayEvent]
      rw [hs, hd]
      exact ⟨Nat.le_refl 0, Nat.le_succ 0⟩
  | succ n ih =>
      intro l₁ l₂ h
      rw [loopEvents, ← List.append_assoc] at h
      have hsn : (setupEvents F ++ loopEvents env n).countP isSnapshotEvent
          = n := by
        rw [List.countP_append, setup_countP_snapshot,
          loopEvents_countP_snapshot, Nat.zero_add]
      have hdn : (setupEvents F ++ loopEvents env n).countP isDisplayEvent
          = n := by
        rw [List.countP_append, setup_countP_display,
          loopEvents_countP_display, Nat.zero_add]
      rcases List.append_eq_append_iff.mp h with ⟨a', ha1, ha2⟩ |
        ⟨c', hc1, _⟩
      · rcases a' with _ | ⟨x, _ | ⟨y, _ | ⟨z, t⟩⟩⟩
        · rw [List.append_nil] at ha1
          subst ha1
          rw [hsn, hdn]
          exact ⟨Nat.le_refl n, Nat.le_succ n⟩
        · simp only [List.cons_append, List.nil_append] at ha2
          injection ha2 with hx hl₂
          subst ha1
          rw [← hx]
          refine ⟨?_, ?_⟩ <;>
            simp [List.countP_append, List.countP_cons,
              setup_countP_snapshot, setup_countP_display,
              loopEvents_countP_snapshot, loopEvents_countP_display,
              isSnapshotEvent, isDisplayEvent]
        · simp only [List.cons_append, List.nil_append] at ha2
          injection ha2 with hx h2
          injection h2 with hy hl₂
          subst ha1
          rw [← hx, ← hy]
          refine ⟨?_, ?_⟩ <;>
            simp [List.countP_append, List.countP_cons,
              setup_countP_snapshot, setup_countP_display,
              loopEvents_countP_snapshot, loopEvents_countP_display,
              isSnapshotEvent, isDisplayEvent]
        · exfalso
          simp only [List.cons_append] at ha2
          injection ha2 with _ h2
          injection h2 with _ h3
          exact List.cons_ne_nil z (t ++ l₂) h3.symm
      · exact ih l₁ c' hc1

/-- Claim C6: at most one frame is in flight at every point of execution:
across every split of the trace, the events so far contain at least as many
captures as displays and at most one more capture than displays (each
captured frame is consumed by the display of the same iteration before the
next capture), and the machine state retains no frame at all — states of
runs over arbitrary different frame environments coincide. -/
theorem single_frame_in_flight {F : Type} (env env' : Nat → F) (n : Nat)
    (l₁ l₂ : List (Event F)) (h : (run env (5 + n)).2 = l₁ ++ l₂) :
    (l₁.countP isDisplayEvent ≤ l₁.countP isSnapshotEvent ∧
     l₁.countP isSnapshotEvent ≤ l₁.countP isDisplayEvent + 1) ∧
    (run env (5 + n)).1 = (run env' (5 + n)).1 := by
  constructor
  · apply balanced_split_aux env n l₁ l₂
    rw [run_eq] at h
    exact h
  · rw [run_eq, run_eq]

theorem single_frame_in_flight_witness :
    ((run (fun j : Nat => j) (5 + 1)).2 =
      (run (fun j : Nat => j) (5 + 1)).2 ++ []) ∧
    (((run (fun j : Nat => j) (5 + 1)).2.countP isDisplayEvent ≤
        (run (fun j : Nat => j) (5 + 1)).2.countP isSnapshotEvent ∧
      (run (fun j : Nat => j) (5 + 1)).2.countP isSnapshotEvent ≤
        (run (fun j : Nat => j) (5 + 1)).2.countP isDisplayEvent + 1) ∧
     (run (fun j : Nat => j) (5 + 1)).1 =
       (run (fun j : Nat => j + 7) (5 + 1)).1) :=
  ⟨(List.append_nil _).symm,
   single_frame_in_flight (fun j : Nat => j) (fun j : Nat => j + 7) 1 _ []
     (List.append_nil _).symm⟩

/-- Claim C7 counterexample: the claim that exactly three configuration
calls precede the loop is false — the pre-loop section of the script emits
five configuration calls, not three. -/
theorem three_config_calls_cex :
    ¬((run (fun i : Nat => i) 5).2.countP isConfigEvent = 3) := by decide

/-- Claim C7 (amended): the entire content of the script is five
configuration calls followed by the two-line display loop: the events
preceding the loop are exactly five configuration calls, and the loop part
contains none. -/
theorem five_config_calls_before_loop {F : Type} (env : Nat → F) (n : Nat) :
    ((run env (5 + n)).2.take 5).countP isConfigEvent = 5 ∧
    ((run env (5 + n)).2.drop 5).countP isConfigEvent = 0 := by
  rw [run_eq]
  constructor
  · rfl
  · exact loopEvents_countP_config env n

/-- Claim C4: the script contains no error handling: if the first `k`
iterations succeed and iteration `k` fails — either the capture call
raises, or the capture succeeds and the display call raises — then the
whole run fails with exactly that error, no matter how many further
iterations were requested: the error is never caught, handled or replaced,
and no further work is observed. -/
theorem no_error_handling {F ε : Type} (snap : Nat → Except ε F)
    (disp : F → Except ε Unit) (k : Nat) (e : ε)
    (hok : loopRunE snap disp k = Except.ok ())
    (hfail : snap k = Except.error e ∨
      ∃ f, snap k = Except.ok f ∧ disp f = Except.error e) :
    ∀ m, loopRunE snap disp (k + 1 + m) = Except.error e := by
  intro m
  induction m with
  | zero =>
      show loopRunE snap disp (k + 1) = Except.error e
      have hstep : loopRunE snap disp (k + 1) =
          (loopRunE snap disp k).bind fun _ =>
            (snap k).bind fun f => disp f := rfl
      rw [hstep, hok]
      show (snap k).bind (fun f => disp f) = Except.error e
      rcases hfail with hf | ⟨f, hf, hd⟩
      · rw [hf]
        rfl
      · rw [hf]
        exact hd
  | succ m ih =>
      show loopRunE snap disp ((k + 1 + m) + 1) = Except.error e
      have hstep : loopRunE snap disp ((k + 1 + m) + 1) =
          (loopRunE snap disp (k + 1 + m)).bind fun _ =>
            (snap (k + 1 + m)).bind fun f => disp f := rfl
      rw [hstep, ih]
      rfl

theorem no_error_handling_witness :
    loopRunE (fun _ : Nat => (Except.error 42 : Except Nat Nat))
      (fun _ : Nat => (Except.ok () : Except Nat Unit)) 0 = Except.ok () ∧
    (fun _ : Nat => (Except.error 42 : Except Nat Nat)) 0 =
      Except.error 42 ∧
    loopRunE (fun _ : Nat => (Except.error 42 : Except Nat Nat))
      (fun _ : Nat => (Except.ok () : Except Nat Unit)) 3 =
      Except.error 42 :=
  ⟨rfl, rfl,
   no_error_handling (fun _ : Nat => (Except.error 42 : Except Nat Nat))
     (fun _ : Nat => (Except.ok () : Except Nat Unit)) 0 42 rfl
     (Or.inl rfl) 2⟩

end TVShield
